import Mathlib

/-!
Shallow embedding of the authentication, registration and social-feed
persistence logic of the community-platform web application
(src/app.py, src/models.py, src/forms.py), together with theorems
settling the specification claims about it.

Conventions of the embedding:
  * database tables are lists of record structures, in insertion order;
  * SQLAlchemy `filter_by(...).first()` becomes `List.find?`;
  * `order_by(created_at.desc()).first()` becomes a fold picking a row
    of maximal `created_at` among the filtered rows;
  * timestamps are natural numbers counted in minutes, so the 30-minute
    expiry window of a verification code is the constant 30; Python
    computes `now - created_at > timedelta(minutes=30)` on datetimes,
    and for rows issued in the past this agrees with truncated `Nat`
    subtraction;
  * external collaborators are parameters: the werkzeug hash check is a
    function `check : String → String → Bool`, password hashing is
    `hashFn : String → String`, slugify is `slugifyFn : String → String`,
    and the outcome of the mail send is a boolean `sendOk`;
  * Python truthiness on form fields and on the nullable-in-practice
    `password_hash` column maps empty string to falsy;
  * a handler returns a result structure carrying the authentication
    outcome, the flashed message (if any) and the updated table state;
    per the request/transaction model, a request that does not commit
    leaves the table state unchanged.
-/

namespace RetroNet

/-- Row of the `users` table (src/models.py, class User), restricted to the
fields the authentication and registration handlers read. `password_hash`
is a string; the empty string models a falsy (unset) hash, which the login
handler tests with Python truthiness. -/
structure UserRec where
  id : Nat
  username : String
  email : String
  password_hash : String
  deriving DecidableEq

/-- Row of the `password_resets` table (src/models.py, class PasswordReset):
email, 6-digit code, issuance time, used flag. -/
structure ResetRec where
  id : Nat
  email : String
  code : String
  created_at : Nat
  used : Bool
  deriving DecidableEq

/-- `User.query.filter_by(email=email).first()`. -/
def findUser (users : List UserRec) (email : String) : Option UserRec :=
  users.find? (fun u => u.email = email)

/-- The rows of `password_resets` matching `filter_by(email=..., code=..., used=False)`. -/
def matchingUnused (resets : List ResetRec) (email code : String) : List ResetRec :=
  resets.filter (fun r => r.email = email && r.code = code && !r.used)

/-- One step of picking a row of maximal `created_at`. -/
def pickStep (acc : Option ResetRec) (r : ResetRec) : Option ResetRec :=
  match acc with
  | none => some r
  | some b => if b.created_at < r.created_at then some r else some b

/-- `order_by(PasswordReset.created_at.desc()).first()` on a filtered row
list: a row of maximal `created_at`, `none` on the empty list. -/
def pickLatest (l : List ResetRec) : Option ResetRec :=
  l.foldl pickStep none

/-- The query of the verification handler (src/app.py:245-249): most recent
unused row matching the submitted email and code. -/
def findReset (resets : List ResetRec) (email code : String) : Option ResetRec :=
  pickLatest (matchingUnused resets email code)

/-- Outcome of the `/verify_login` handler: whether the session was
authenticated, the flashed message, and the resulting `password_resets`
table. -/
structure VerifyResult where
  authenticated : Bool
  message : Option String
  resets : List ResetRec
  deriving DecidableEq

/-- The POST branch of `verify_login` (src/app.py:221-273), after CSRF
validation, for the email held in the session. Looks up the most recent
unused row matching (email, code); rejects when absent or older than 30
minutes; otherwise marks it used and, when the user row exists, commits
and authenticates. When the user row is missing nothing is committed, so
the table is unchanged. -/
def verify_login (users : List UserRec) (resets : List ResetRec)
    (email code : String) (now : Nat) : VerifyResult :=
  if code = "" then
    { authenticated := false, message := some "Verification code is required",
      resets := resets }
  else
    match findReset resets email code with
    | none =>
        { authenticated := false,
          message := some "Invalid or expired verification code", resets := resets }
    | some r =>
        if 30 < now - r.created_at then
          { authenticated := false,
            message := some "Invalid or expired verification code", resets := resets }
        else
          match findUser users email with
          | some _ =>
              { authenticated := true, message := none,
                resets := resets.map
                  (fun x => if x.id = r.id then { x with used := true } else x) }
          | none =>
              { authenticated := false, message := some "User not found",
                resets := resets }

/-- Outcome of the `/login` handler: authentication outcome, flashed
message, resulting `password_resets` table, whether an outbound mail send
was attempted, and the `login_email` value stored in the session. -/
structure LoginResult where
  authenticated : Bool
  message : Option String
  resets : List ResetRec
  emailAttempted : Bool
  sessionEmail : Option String
  deriving DecidableEq

/-- The POST branch of `login` (src/app.py:156-219), after CSRF validation.
`check` embeds werkzeug `check_password_hash`; `newCode` is the 6-digit
code drawn for the passwordless branch, `newId` its fresh primary key,
`sendOk` the outcome of `send_verification_code`. The passwordless branch
commits the new code row before attempting the send, so the row persists
even when the send fails. -/
def login (users : List UserRec) (resets : List ResetRec)
    (email password login_type : String)
    (check : String → String → Bool)
    (newCode : String) (newId now : Nat) (sendOk : Bool) : LoginResult :=
  if email = "" then
    { authenticated := false, message := some "Email is required",
      resets := resets, emailAttempted := false, sessionEmail := none }
  else
    match findUser users email with
    | none =>
        { authenticated := false,
          message := some "No account found with this email address",
          resets := resets, emailAttempted := false, sessionEmail := none }
    | some u =>
        if login_type = "password" then
          if password = "" then
            { authenticated := false, message := some "Password is required",
              resets := resets, emailAttempted := false, sessionEmail := none }
          else if u.password_hash = "" then
            { authenticated := false,
              message := some "Please use passwordless login or reset your password",
              resets := resets, emailAttempted := false, sessionEmail := none }
          else if check u.password_hash password then
            { authenticated := true, message := none,
              resets := resets, emailAttempted := false, sessionEmail := none }
          else
            { authenticated := false, message := some "Invalid password",
              resets := resets, emailAttempted := false, sessionEmail := none }
        else
          let row : ResetRec :=
            { id := newId, email := email, code := newCode,
              created_at := now, used := false }
          let resets2 := resets ++ [row]
          if sendOk then
            { authenticated := false,
              message := some "A verification code has been sent to your email",
              resets := resets2, emailAttempted := true, sessionEmail := some email }
          else
            { authenticated := false,
              message := some "Error sending verification code",
              resets := resets2, emailAttempted := true, sessionEmail := none }

/-- Outcome of the `/register` handler: authentication outcome, flashed
message, resulting `users` table. -/
structure RegisterResult where
  authenticated : Bool
  message : Option String
  users : List UserRec
  deriving DecidableEq

/-- The POST branch of `register` (src/app.py:291-337), after CSRF
validation. Note it only checks presence of the three fields and the two
duplicate pre-checks; the `RegistrationForm` validators are never applied
on this route. `hashFn` embeds werkzeug `generate_password_hash`. -/
def register (users : List UserRec) (email username password : String)
    (hashFn : String → String) (newId : Nat) : RegisterResult :=
  if email = "" || username = "" || password = "" then
    { authenticated := false, message := some "All fields are required",
      users := users }
  else if (users.find? (fun u => u.email = email)).isSome then
    { authenticated := false, message := some "Email already registered",
      users := users }
  else if (users.find? (fun u => u.username = username)).isSome then
    { authenticated := false, message := some "Username already taken",
      users := users }
  else
    let u : UserRec :=
      { id := newId, username := username, email := email,
        password_hash := hashFn password }
    { authenticated := true, message := none, users := users ++ [u] }

/-- The declared validators of `RegistrationForm` (src/forms.py:29-44):
DataRequired on username/email/password/terms, username length at least 3,
password length at least 8, and the wtforms Email() format check embedded
as the parameter `emailOk`. -/
def registrationFormOk (username email password : String) (terms : Bool)
    (emailOk : String → Bool) : Bool :=
  (!username.isEmpty) && decide (3 ≤ username.length)
    && (!email.isEmpty) && emailOk email
    && (!password.isEmpty) && decide (8 ≤ password.length)
    && terms

/-- Row of the `reactions` table (src/models.py, class Reaction): user,
at most one of post/comment target, reaction type. -/
structure ReactionRec where
  id : Nat
  user_id : Nat
  post_id : Option Nat
  comment_id : Option Nat
  reaction_type : String
  deriving DecidableEq

/-- The CHECK constraint `chk_reaction_target` (src/models.py:371-372):
exactly one of post_id / comment_id is non-null. -/
def reactionTargetOk (r : ReactionRec) : Bool :=
  (r.post_id.isSome && r.comment_id.isNone)
    || (r.post_id.isNone && r.comment_id.isSome)

/-- The unique constraints `uix_user_post_reaction` and
`uix_user_comment_reaction` (src/models.py:369-370), with SQL null
semantics: rows whose target column is NULL never conflict on that
index. -/
def reactionConflict (rs : List ReactionRec) (r : ReactionRec) : Bool :=
  rs.any (fun x => x.user_id = r.user_id && r.post_id.isSome && x.post_id = r.post_id)
    || rs.any (fun x =>
        x.user_id = r.user_id && r.comment_id.isSome && x.comment_id = r.comment_id)

/-- Insertion into `reactions` as enforced by the persistence layer:
the CHECK constraint and the unique constraints must hold, otherwise the
insert is rejected. -/
def insertReaction (rs : List ReactionRec) (r : ReactionRec) :
    Option (List ReactionRec) :=
  if reactionTargetOk r && !reactionConflict rs r then some (rs ++ [r]) else none

/-- Database states of the `reactions` table reachable from the empty
table through constraint-checked inserts. -/
inductive ReactionReachable : List ReactionRec → Prop where
  | empty : ReactionReachable []
  | step (rs rs' : List ReactionRec) (r : ReactionRec) :
      ReactionReachable rs → insertReaction rs r = some rs' →
      ReactionReachable rs'

/-- Row of the `poll_options` table (src/models.py, class PollOption). -/
structure PollOptionRec where
  id : Nat
  post_id : Nat
  text : String
  position : Nat
  deriving DecidableEq

/-- Row of the `poll_votes` table (src/models.py, class PollVote). -/
structure PollVoteRec where
  id : Nat
  user_id : Nat
  option_id : Nat
  deriving DecidableEq

/-- The unique constraint `uix_user_option_vote` (src/models.py:399):
a second row with the same (user_id, option_id) conflicts. -/
def voteConflict (vs : List PollVoteRec) (v : PollVoteRec) : Bool :=
  vs.any (fun x => x.user_id = v.user_id && x.option_id = v.option_id)

/-- Insertion into `poll_votes` as enforced by the persistence layer. -/
def insertPollVote (vs : List PollVoteRec) (v : PollVoteRec) :
    Option (List PollVoteRec) :=
  if voteConflict vs v then none else some (vs ++ [v])

/-- Row of the `channels` table (src/models.py, class Channel), restricted
to the fields the form validator reads. -/
structure ChannelRec where
  id : Nat
  name : String
  slug : String
  deriving DecidableEq

/-- `ChannelForm.validate_name` (src/forms.py:64-71): slugify the submitted
name and reject when a channel with that slug already exists. Returns
`true` when validation passes. `slugifyFn` embeds the external slugify
collaborator. -/
def validate_name (channels : List ChannelRec) (slugifyFn : String → String)
    (name : String) : Bool :=
  match channels.find? (fun c => c.slug = slugifyFn name) with
  | some _ => false
  | none => true

/-- Modelled from the wording of claim C1 (for refinement comparison only,
not from the source): the most recent unused verification code row stored
for an email, regardless of which code the caller submitted. -/
def specMostRecentUnused (resets : List ResetRec) (email : String) :
    Option ResetRec :=
  pickLatest (resets.filter (fun r => r.email = email && !r.used))

/-! ### Helper lemmas about `pickLatest` and `findReset` -/

/-- Folding `pickStep` from a seed row yields a row of the seed-or-list
with maximal `created_at`. -/
lemma foldl_pickStep_spec (l : List ResetRec) : ∀ b : ResetRec,
    ∃ r, l.foldl pickStep (some b) = some r ∧ (r = b ∨ r ∈ l) ∧
      b.created_at ≤ r.created_at ∧ ∀ x ∈ l, x.created_at ≤ r.created_at := by
  induction l with
  | nil =>
      intro b
      exact ⟨b, rfl, Or.inl rfl, le_refl _, by simp⟩
  | cons a t ih =>
      intro b
      by_cases hba : b.created_at < a.created_at
      · obtain ⟨r, hr, hmem, hle, hmax⟩ := ih a
        refine ⟨r, ?_, ?_, ?_, ?_⟩
        · simpa [List.foldl_cons, pickStep, hba] using hr
        · rcases hmem with h | h
          · exact Or.inr (by simp [h])
          · exact Or.inr (List.mem_cons_of_mem _ h)
        · exact le_trans (le_of_lt hba) hle
        · intro x hx
          rcases List.mem_cons.mp hx with h | h
          · subst h; exact hle
          · exact hmax x h
      · obtain ⟨r, hr, hmem, hle, hmax⟩ := ih b
        refine ⟨r, ?_, ?_, hle, ?_⟩
        · simpa [List.foldl_cons, pickStep, hba] using hr
        · rcases hmem with h | h
          · exact Or.inl h
          · exact Or.inr (List.mem_cons_of_mem _ h)
        · intro x hx
          rcases List.mem_cons.mp hx with h | h
          · subst h
            exact le_trans (le_of_not_lt hba) hle
          · exact hmax x h

/-- `pickLatest` returns `none` exactly on the empty list. -/
lemma pickLatest_eq_none {l : List ResetRec} :
    pickLatest l = none ↔ l = [] := by
  cases l with
  | nil => simp [pickLatest]
  | cons a t =>
      obtain ⟨r, hr, _, _, _⟩ := foldl_pickStep_spec t a
      simp only [pickLatest, List.foldl_cons, pickStep, hr]
      simp

/-- A row returned by `pickLatest` is a member of the list and has maximal
`created_at`. -/
lemma pickLatest_spec {l : List ResetRec} {r : ResetRec}
    (h : pickLatest l = some r) :
    r ∈ l ∧ ∀ x ∈ l, x.created_at ≤ r.created_at := by
  cases l with
  | nil => simp [pickLatest] at h
  | cons a t =>
      obtain ⟨r', hr', hmem, hle, hmax⟩ := foldl_pickStep_spec t a
      have heq : pickLatest (a :: t) = some r' := by
        simpa [pickLatest, List.foldl_cons, pickStep] using hr'
      rw [heq] at h
      cases h
      constructor
      · rcases hmem with h | h
        · exact h ▸ List.mem_cons_self a t
        · exact List.mem_cons_of_mem _ h
      · intro x hx
        rcases List.mem_cons.mp hx with h | h
        · subst h; exact hle
        · exact hmax x h

/-- Membership in the filtered unused-match list, unfolded. -/
lemma mem_matchingUnused {resets : List ResetRec} {email code : String}
    {r : ResetRec} :
    r ∈ matchingUnused resets email code ↔
      r ∈ resets ∧ r.email = email ∧ r.code = code ∧ r.used = false := by
  simp only [matchingUnused, List.mem_filter, Bool.and_eq_true,
    decide_eq_true_eq, Bool.not_eq_true']
  tauto

/-- Declarative acceptance condition implemented by `verify_login`: some
stored unused row for the submitted email carries the submitted code, is
within its 30-minute window, and is most recent among the rows matching
the submitted (email, code). -/
def acceptSpec (resets : List ResetRec) (email code : String) (now : Nat) : Prop :=
  ∃ r ∈ resets, r.email = email ∧ r.code = code ∧ r.used = false ∧
    now - r.created_at ≤ 30 ∧
    ∀ r' ∈ resets, r'.email = email → r'.code = code → r'.used = false →
      r'.created_at ≤ r.created_at

/-- A row returned by the verification query matches the submitted data,
is unused, and is most recent among all such rows. -/
lemma findReset_some {resets : List ResetRec} {email code : String}
    {r : ResetRec} (h : findReset resets email code = some r) :
    r ∈ resets ∧ r.email = email ∧ r.code = code ∧ r.used = false ∧
      ∀ r' ∈ resets, r'.email = email → r'.code = code → r'.used = false →
        r'.created_at ≤ r.created_at := by
  obtain ⟨hmem, hmax⟩ := pickLatest_spec h
  obtain ⟨hin, he, hc, hu⟩ := mem_matchingUnused.mp hmem
  refine ⟨hin, he, hc, hu, ?_⟩
  intro r' hr' he' hc' hu'
  exact hmax r' (mem_matchingUnused.mpr ⟨hr', he', hc', hu'⟩)

/-- When the verification query finds nothing, no stored unused row
matches the submitted (email, code). -/
lemma findReset_none {resets : List ResetRec} {email code : String}
    (h : findReset resets email code = none) :
    ∀ r ∈ resets, ¬(r.email = email ∧ r.code = code ∧ r.used = false) := by
  intro r hr hcontra
  have : matchingUnused resets email code = [] := pickLatest_eq_none.mp h
  have : r ∈ ([] : List ResetRec) := by
    rw [← this]
    exact mem_matchingUnused.mpr ⟨hr, hcontra.1, hcontra.2.1, hcontra.2.2⟩
  simp at this

/-! ### Claim theorems -/

/-- C10: for every passwordless-login request whose submitted email
matches no existing User row, no PasswordReset row is created and no
email-send is attempted: the handler returns before code issuance, with
the no-account message when the email field was non-empty. -/
theorem C10_no_code_for_unknown_email (users : List UserRec)
    (resets : List ResetRec) (email password login_type : String)
    (check : String → String → Bool) (newCode : String) (newId now : Nat)
    (sendOk : Bool)
    (hnone : findUser users email = none)
    (_ht : login_type ≠ "password") :
    (login users resets email password login_type check newCode newId now sendOk).resets
        = resets ∧
    (login users resets email password login_type check newCode newId now sendOk).emailAttempted
        = false ∧
    (login users resets email password login_type check newCode newId now sendOk).authenticated
        = false ∧
    (email ≠ "" →
      (login users resets email password login_type check newCode newId now sendOk).message
        = some "No account found with this email address") := by
  by_cases he : email = ""
  · simp [login, he]
  · simp [login, he, hnone]

/-- C10 witness: concrete instantiation of the unknown-email theorem. -/
theorem C10_witness :
    (login [] [] "a@x.com" "" "code" (fun _ _ => false) "123456" 1 0 true).resets
      = [] ∧
    (login [] [] "a@x.com" "" "code" (fun _ _ => false) "123456" 1 0 true).emailAttempted
      = false := by
  have h := C10_no_code_for_unknown_email [] [] "a@x.com" "" "code"
    (fun _ _ => false) "123456" 1 0 true rfl (by decide)
  exact ⟨h.1, h.2.1⟩

/-- C3: when the outbound verification mail fails during a passwordless
login request for a registered email, the handler flashes the generic
send-error message, yet the freshly issued code row is persisted with
used = false, the send was attempted, and the session is not
authenticated. -/
theorem C3_failed_send_keeps_code (users : List UserRec)
    (resets : List ResetRec) (email password login_type : String)
    (check : String → String → Bool) (newCode : String) (newId now : Nat)
    (he : email ≠ "") (hu : (findUser users email).isSome)
    (ht : login_type ≠ "password") :
    (login users resets email password login_type check newCode newId now false).message
        = some "Error sending verification code" ∧
    (login users resets email password login_type check newCode newId now false).resets
        = resets ++ [{ id := newId, email := email, code := newCode,
                       created_at := now, used := false }] ∧
    (login users resets email password login_type check newCode newId now false).authenticated
        = false := by
  obtain ⟨u, hu'⟩ := Option.isSome_iff_exists.mp hu
  simp [login, he, hu', ht]

/-- C3 witness: concrete instantiation of the failed-send theorem. -/
theorem C3_witness :
    (login [⟨1, "alice", "a@x.com", "H"⟩] [] "a@x.com" "" "code"
        (fun _ _ => false) "483920" 1 0 false).message
      = some "Error sending verification code" ∧
    (login [⟨1, "alice", "a@x.com", "H"⟩] [] "a@x.com" "" "code"
        (fun _ _ => false) "483920" 1 0 false).resets
      = [⟨1, "a@x.com", "483920", 0, false⟩] := by
  have h := C3_failed_send_keeps_code [⟨1, "alice", "a@x.com", "H"⟩] []
    "a@x.com" "" "code" (fun _ _ => false) "483920" 1 0
    (by decide) (by decide) (by decide)
  exact ⟨h.1, h.2.1⟩

/-- C5: a registration attempt whose email or username already exists in
the users table writes nothing (the table is unchanged), does not
authenticate the session, and — when all three fields were submitted
non-empty — is rejected with the corresponding field-specific message. -/
theorem C5_duplicate_registration_rejected (users : List UserRec)
    (email username password : String) (hashFn : String → String) (newId : Nat)
    (hdup : (∃ u ∈ users, u.email = email) ∨ (∃ u ∈ users, u.username = username)) :
    (register users email username password hashFn newId).users = users ∧
    (register users email username password hashFn newId).authenticated = false ∧
    (email ≠ "" → username ≠ "" → password ≠ "" →
      (register users email username password hashFn newId).message
          = some "Email already registered" ∨
        (register users email username password hashFn newId).message
          = some "Username already taken") := by
  by_cases h0 : (email = "" || username = "" || password = "") = true
  · refine ⟨by simp [register, h0], by simp [register, h0], ?_⟩
    intro he hu hp
    simp only [Bool.or_eq_true, decide_eq_true_eq] at h0
    tauto
  · by_cases h1 : (users.find? (fun u => u.email = email)).isSome = true
    · simp [register, h0, h1]
    · have h2 : (users.find? (fun u => u.username = username)).isSome = true := by
        rcases hdup with ⟨u, hu, hue⟩ | ⟨u, hu, hun⟩
        · exact absurd (List.find?_isSome.mpr ⟨u, hu, by simp [hue]⟩) h1
        · exact List.find?_isSome.mpr ⟨u, hu, by simp [hun]⟩
      simp [register, h0, h1, h2]

/-- C5 witness: duplicate email at a concrete state. -/
theorem C5_witness :
    (register [⟨1, "alice", "a@x.com", "H"⟩] "a@x.com" "bob" "longpassword"
        (fun s => s) 2).users = [⟨1, "alice", "a@x.com", "H"⟩] ∧
    (register [⟨1, "alice", "a@x.com", "H"⟩] "a@x.com" "bob" "longpassword"
        (fun s => s) 2).message = some "Email already registered" := by
  have h := C5_duplicate_registration_rejected [⟨1, "alice", "a@x.com", "H"⟩]
    "a@x.com" "bob" "longpassword" (fun s => s) 2
    (Or.inl ⟨⟨1, "alice", "a@x.com", "H"⟩, by decide, rfl⟩)
  refine ⟨h.1, ?_⟩
  rcases h.2.2 (by decide) (by decide) (by decide) with hm | hm
  · exact hm
  · exact absurd (h.1 ▸ hm) (by decide)

/-- C6: the claim says every registration submission violating a declared
RegistrationForm constraint is rejected and nothing is persisted; the
register handler never applies those validators, so a submission with a
2-character username and 5-character password — which the declared
validators reject — creates and authenticates the account. -/
theorem C6_handler_bypasses_form_validators :
    registrationFormOk "ab" "a@x.com" "short" true (fun _ => true) = false ∧
    (register [] "a@x.com" "ab" "short" (fun s => s) 1).authenticated = true ∧
    (register [] "a@x.com" "ab" "short" (fun s => s) 1).users
      = [⟨1, "ab", "a@x.com", "short"⟩] := by
  refine ⟨by decide, rfl, rfl⟩

/-- C9: ChannelForm name validation is decided on the normalized slug:
it rejects exactly when some existing channel already carries the slug of
the submitted name, whatever the raw display names are, and passes
exactly when no existing channel does. -/
theorem C9_channel_uniqueness_by_slug (channels : List ChannelRec)
    (slugifyFn : String → String) (name : String) :
    validate_name channels slugifyFn name = false ↔
      ∃ c ∈ channels, c.slug = slugifyFn name := by
  unfold validate_name
  rcases h : channels.find? (fun c => c.slug = slugifyFn name) with _ | c
  · rw [h]
    constructor
    · intro hfalse; exact absurd hfalse (by decide)
    · rintro ⟨c, hc, hslug⟩
      have := List.find?_eq_none.mp h c hc
      simp [hslug] at this
  · rw [h]
    constructor
    · intro _
      exact ⟨c, List.mem_of_find?_eq_some h, by simpa using List.find?_some h⟩
    · intro _; rfl

/-- C2 counterexample: two failing login attempts that differ only in
whether the account exists produce different user-facing messages, so
the caller can distinguish the cases — the claim that all
credential-failure messages are generic is false on the code. -/
theorem C2_counterexample :
    (login [] [] "a@x.com" "pw12345678" "password"
        (fun _ _ => false) "1" 0 0 true).authenticated = false ∧
    (login [⟨1, "alice", "a@x.com", "H"⟩] [] "a@x.com" "pw12345678" "password"
        (fun _ _ => false) "1" 0 0 true).authenticated = false ∧
    (login [] [] "a@x.com" "pw12345678" "password"
        (fun _ _ => false) "1" 0 0 true).message
      = some "No account found with this email address" ∧
    (login [⟨1, "alice", "a@x.com", "H"⟩] [] "a@x.com" "pw12345678" "password"
        (fun _ _ => false) "1" 0 0 true).message
      = some "Invalid password" ∧
    (login [] [] "a@x.com" "pw12345678" "password"
          (fun _ _ => false) "1" 0 0 true).message ≠
      (login [⟨1, "alice", "a@x.com", "H"⟩] [] "a@x.com" "pw12345678" "password"
          (fun _ _ => false) "1" 0 0 true).message := by
  refine ⟨rfl, rfl, rfl, rfl, by decide⟩

/-- C2 amended: login failure messages are case-specific, not generic —
a missing account, a wrong password and a wrong verification code each
produce their own distinct message, so the caller can distinguish the
cases (in particular whether an account exists for the email). -/
theorem C2_amended_messages_distinguish_cases :
    (∀ (users : List UserRec) (resets : List ResetRec)
        (email password newCode : String) (check : String → String → Bool)
        (newId now : Nat) (sendOk : Bool),
      email ≠ "" → findUser users email = none →
      (login users resets email password "password" check newCode newId now sendOk).message
        = some "No account found with this email address") ∧
    (∀ (users : List UserRec) (resets : List ResetRec)
        (email password newCode : String) (check : String → String → Bool)
        (newId now : Nat) (sendOk : Bool) (u : UserRec),
      email ≠ "" → password ≠ "" →
      findUser users email = some u → u.password_hash ≠ "" →
      check u.password_hash password = false →
      (login users resets email password "password" check newCode newId now sendOk).message
        = some "Invalid password") ∧
    (∀ (users : List UserRec) (resets : List ResetRec)
        (email code : String) (now : Nat),
      code ≠ "" → findReset resets email code = none →
      (verify_login users resets email code now).message
        = some "Invalid or expired verification code") ∧
    ("No account found with this email address" ≠ "Invalid password" ∧
      "No account found with this email address"
        ≠ "Invalid or expired verification code" ∧
      "Invalid password" ≠ "Invalid or expired verification code") := by
  refine ⟨?_, ?_, ?_, by decide, by decide, by decide⟩
  · intro users resets email password newCode check newId now sendOk he hf
    simp [login, he, hf]
  · intro users resets email password newCode check newId now sendOk u he hp hf hh hc
    simp [login, he, hp, hf, hh, hc]
  · intro users resets email code now hc hf
    simp [verify_login, hc, hf]

/-- C2 amended witness: the no-account conjunct at a concrete input. -/
theorem C2_amended_witness :
    (login [] [] "a@x.com" "pw" "password" (fun _ _ => false) "1" 0 0 true).message
      = some "No account found with this email address" :=
  C2_amended_messages_distinguish_cases.1 [] [] "a@x.com" "pw" "1"
    (fun _ _ => false) 0 0 true (by decide) rfl

/-- C4 counterexample: a state in which the account for the submitted
email exists, carries a stored hash, and the hash check verifies the
submitted (empty) password, yet password login does not authenticate —
the handler rejects an empty password before the hash comparison, so the
claimed if-and-only-if is false as stated. -/
theorem C4_counterexample :
    (login [⟨1, "alice", "a@x.com", "H"⟩] [] "a@x.com" "" "password"
        (fun _ _ => true) "1" 0 0 true).authenticated = false ∧
    findUser [⟨1, "alice", "a@x.com", "H"⟩] "a@x.com"
      = some ⟨1, "alice", "a@x.com", "H"⟩ ∧
    (⟨1, "alice", "a@x.com", "H"⟩ : UserRec).password_hash ≠ "" ∧
    (fun (_ _ : String) => true) "H" "" = true := by
  refine ⟨rfl, rfl, by decide, rfl⟩

/-- C4 amended: provided the submitted email and password are non-empty
(empty submissions are rejected with field-required messages before any
lookup or comparison), password login authenticates exactly when the
account found for the email has a non-empty stored hash that verifies
against the submitted password. -/
theorem C4_amended_password_login_iff (users : List UserRec)
    (resets : List ResetRec) (email password newCode : String)
    (check : String → String → Bool) (newId now : Nat) (sendOk : Bool)
    (he : email ≠ "") (hp : password ≠ "") :
    (login users resets email password "password" check newCode newId now sendOk).authenticated
        = true ↔
      ∃ u, findUser users email = some u ∧ u.password_hash ≠ "" ∧
        check u.password_hash password = true := by
  rcases hf : findUser users email with _ | u
  · simp [login, he, hf]
  · by_cases hh : u.password_hash = ""
    · simp [login, he, hf, hp, hh]
    · by_cases hc : check u.password_hash password = true
      · simp [login, he, hf, hp, hh, hc]
      · simp only [Bool.not_eq_true] at hc
        simp [login, he, hf, hp, hh, hc]

/-- C4 amended witness: a successful password login at a concrete input. -/
theorem C4_amended_witness :
    (login [⟨1, "alice", "a@x.com", "H"⟩] [] "a@x.com" "secretpw" "password"
        (fun h p => h = "H" && p = "secretpw") "1" 0 0 true).authenticated = true :=
  (C4_amended_password_login_iff [⟨1, "alice", "a@x.com", "H"⟩] []
      "a@x.com" "secretpw" "1" (fun h p => h = "H" && p = "secretpw") 0 0 true
      (by decide) (by decide)).mpr
    ⟨⟨1, "alice", "a@x.com", "H"⟩, rfl, by decide, by decide⟩

/-- C7: the reactions persistence layer rejects any insert whose row does
not have exactly one of post_id / comment_id non-null, and consequently
every row of every database state reachable from the empty table through
constraint-checked inserts has exactly one non-null target. -/
theorem C7_reaction_target_exclusivity :
    (∀ (rs : List ReactionRec) (r : ReactionRec),
        reactionTargetOk r = false → insertReaction rs r = none) ∧
    (∀ rs : List ReactionRec, ReactionReachable rs →
        ∀ r ∈ rs, reactionTargetOk r = true) := by
  constructor
  · intro rs r h
    simp [insertReaction, h]
  · intro rs hreach
    induction hreach with
    | empty => intro r hr; simp at hr
    | step rs rs' r _ hins ih =>
        intro x hx
        unfold insertReaction at hins
        by_cases hc : (reactionTargetOk r && !reactionConflict rs r) = true
        · rw [if_pos hc] at hins
          cases hins
          rcases List.mem_append.mp hx with h | h
          · exact ih x h
          · rw [List.mem_singleton.mp h]
            exact (Bool.and_eq_true _ _).mp hc |>.1
        · rw [if_neg hc] at hins
          cases hins

/-- C7 witness: a both-targets insert is rejected at a concrete state, and
a concrete reachable state satisfies the invariant at its single row. -/
theorem C7_witness :
    insertReaction [] ⟨1, 1, some 1, some 2, "like"⟩ = none ∧
    reactionTargetOk ⟨2, 1, some 1, none, "like"⟩ = true := by
  constructor
  · exact C7_reaction_target_exclusivity.1 [] ⟨1, 1, some 1, some 2, "like"⟩ rfl
  · exact C7_reaction_target_exclusivity.2 [⟨2, 1, some 1, none, "like"⟩]
      (ReactionReachable.step [] _ ⟨2, 1, some 1, none, "like"⟩
        ReactionReachable.empty rfl)
      ⟨2, 1, some 1, none, "like"⟩ (List.mem_singleton.mpr rfl)

/-- C8: poll-vote uniqueness is scoped to (user_id, option_id): an insert
duplicating an existing (user, option) pair is rejected, while two votes
by the same user on two different options of the same poll are both
accepted by the persistence layer. -/
theorem C8_poll_vote_uniqueness_per_option :
    (∀ (votes : List PollVoteRec) (v w : PollVoteRec),
        w ∈ votes → w.user_id = v.user_id → w.option_id = v.option_id →
        insertPollVote votes v = none) ∧
    (∀ (votes : List PollVoteRec) (opts : List PollOptionRec)
        (q1 q2 : PollOptionRec) (u i1 i2 : Nat),
        q1 ∈ opts → q2 ∈ opts → q1.post_id = q2.post_id → q1.id ≠ q2.id →
        (∀ w ∈ votes, w.user_id = u →
            w.option_id ≠ q1.id ∧ w.option_id ≠ q2.id) →
        ∃ votes1,
          insertPollVote votes ⟨i1, u, q1.id⟩ = some votes1 ∧
          insertPollVote votes1 ⟨i2, u, q2.id⟩
            = some (votes1 ++ [⟨i2, u, q2.id⟩])) := by
  constructor
  · intro votes v w hw hwu hwo
    have hconf : voteConflict votes v = true := by
      apply List.any_eq_true.mpr
      exact ⟨w, hw, by simp [hwu, hwo]⟩
    simp [insertPollVote, hconf]
  · intro votes opts q1 q2 u i1 i2 _ _ _ hne hfresh
    have hc1 : voteConflict votes ⟨i1, u, q1.id⟩ = false := by
      apply (Bool.not_eq_true _).mp
      intro hcontra
      obtain ⟨w, hw, hwp⟩ := List.any_eq_true.mp hcontra
      simp only [Bool.and_eq_true, decide_eq_true_eq] at hwp
      exact (hfresh w hw hwp.1).1 hwp.2
    refine ⟨votes ++ [⟨i1, u, q1.id⟩], by simp [insertPollVote, hc1], ?_⟩
    have hc2 : voteConflict (votes ++ [⟨i1, u, q1.id⟩]) ⟨i2, u, q2.id⟩ = false := by
      apply (Bool.not_eq_true _).mp
      intro hcontra
      obtain ⟨w, hw, hwp⟩ := List.any_eq_true.mp hcontra
      simp only [Bool.and_eq_true, decide_eq_true_eq] at hwp
      rcases List.mem_append.mp hw with h | h
      · exact (hfresh w h hwp.1).2 hwp.2
      · rw [List.mem_singleton.mp h] at hwp
        exact hne hwp.2
    simp [insertPollVote, hc2]

/-- C8 witness: concrete duplicate rejection and concrete acceptance of
two votes on two options of the same poll. -/
theorem C8_witness :
    insertPollVote [⟨1, 7, 10⟩] ⟨2, 7, 10⟩ = none ∧
    insertPollVote [] ⟨1, 7, 10⟩ = some [⟨1, 7, 10⟩] ∧
    insertPollVote [⟨1, 7, 10⟩] ⟨2, 7, 11⟩ = some [⟨1, 7, 10⟩, ⟨2, 7, 11⟩] := by
  obtain ⟨votes1, h1, h2⟩ := C8_poll_vote_uniqueness_per_option.2 []
      [⟨10, 5, "yes", 0⟩, ⟨11, 5, "no", 1⟩] ⟨10, 5, "yes", 0⟩ ⟨11, 5, "no", 1⟩
      7 1 2 (by decide) (by decide) rfl (by decide) (by intro w hw; simp at hw)
  have hv : votes1 = [⟨1, 7, 10⟩] := by
    have h0 : some votes1 = some [(⟨1, 7, 10⟩ : PollVoteRec)] := h1.symm.trans rfl
    exact Option.some_inj.mp h0
  subst hv
  exact ⟨C8_poll_vote_uniqueness_per_option.1 [⟨1, 7, 10⟩] ⟨2, 7, 10⟩ ⟨1, 7, 10⟩
      (List.mem_singleton.mpr rfl) rfl rfl, h1, h2⟩

/-- Evaluation of the verification handler on the accepting path. -/
lemma verify_login_accept {users : List UserRec} {resets : List ResetRec}
    {email code : String} {now : Nat} {r : ResetRec} {u : UserRec}
    (hcode : code ≠ "") (hfr : findReset resets email code = some r)
    (hwin : now - r.created_at ≤ 30) (hu : findUser users email = some u) :
    verify_login users resets email code now =
      { authenticated := true, message := none,
        resets := resets.map
          (fun x => if x.id = r.id then { x with used := true } else x) } := by
  simp [verify_login, hcode, hfr, hu, Nat.not_lt.mpr hwin]

/-- C1 counterexample: with two unused codes outstanding for the same
email, submitting the older one authenticates, although it does not match
the most recent unused code stored for that email — so the claimed
if-and-only-if ("the code matches the most recent unused verification
code stored for that email") is false as stated. -/
theorem C1_counterexample :
    (verify_login [⟨1, "alice", "a@x.com", "H"⟩]
        [⟨1, "a@x.com", "111111", 0, false⟩, ⟨2, "a@x.com", "222222", 10, false⟩]
        "a@x.com" "111111" 20).authenticated = true ∧
    Option.map ResetRec.code
        (specMostRecentUnused
          [⟨1, "a@x.com", "111111", 0, false⟩, ⟨2, "a@x.com", "222222", 10, false⟩]
          "a@x.com")
      = some "222222" ∧
    ("111111" : String) ≠ "222222" := by
  refine ⟨rfl, rfl, by decide⟩

/-- C1 amended: for a registered email and non-empty submitted code, the
verification handler authenticates exactly when some stored unused row
for that email carries the submitted code and the most recent such
matching row was issued at most 30 minutes ago; on acceptance that row
survives with used = true, and when it was the only unused row carrying
that code, resubmitting the same code at any later time is rejected. -/
theorem C1_amended_verify_iff (users : List UserRec) (resets : List ResetRec)
    (email code : String) (now : Nat)
    (hcode : code ≠ "") (huser : (findUser users email).isSome) :
    ((verify_login users resets email code now).authenticated = true ↔
      acceptSpec resets email code now) ∧
    ((verify_login users resets email code now).authenticated = true →
      ∃ r ∈ (verify_login users resets email code now).resets,
        r.email = email ∧ r.code = code ∧ r.used = true) ∧
    ((verify_login users resets email code now).authenticated = true →
      (matchingUnused resets email code).length = 1 →
      ∀ now' : Nat,
        (verify_login users (verify_login users resets email code now).resets
            email code now').authenticated = false) := by
  obtain ⟨u, hu⟩ := Option.isSome_iff_exists.mp huser
  rcases hfr : findReset resets email code with _ | r
  · -- no row matches (email, code, unused): rejection
    have hev : verify_login users resets email code now =
        { authenticated := false,
          message := some "Invalid or expired verification code",
          resets := resets } := by
      simp [verify_login, hcode, hfr]
    refine ⟨?_, ?_, ?_⟩
    · rw [hev]
      constructor
      · intro h; simp at h
      · rintro ⟨r, hr, he, hc, hus, -, -⟩
        exact absurd ⟨he, hc, hus⟩ (findReset_none hfr r hr)
    · intro h; rw [hev] at h; simp at h
    · intro h; rw [hev] at h; simp at h
  · obtain ⟨hrmem, hremail, hrcode, hrused, hrmax⟩ := findReset_some hfr
    by_cases hwin : now - r.created_at ≤ 30
    · -- accepted
      have hev := verify_login_accept hcode hfr hwin hu
      refine ⟨?_, ?_, ?_⟩
      · rw [hev]
        constructor
        · intro _
          exact ⟨r, hrmem, hremail, hrcode, hrused, hwin, hrmax⟩
        · intro _; rfl
      · intro _
        rw [hev]
        refine ⟨{ r with used := true }, ?_, hremail, hrcode, rfl⟩
        simpa using
          List.mem_map_of_mem
            (fun x => if x.id = r.id then { x with used := true } else x) hrmem
      · intro _ hlen now'
        have hsingle : matchingUnused resets email code = [r] := by
          have hrm : r ∈ matchingUnused resets email code :=
            mem_matchingUnused.mpr ⟨hrmem, hremail, hrcode, hrused⟩
          obtain ⟨a, ha⟩ := List.length_eq_one.mp hlen
          rw [ha] at hrm ⊢
          rw [List.mem_singleton.mp hrm]
        have hnone2 : findReset
            (resets.map (fun x => if x.id = r.id then { x with used := true } else x))
            email code = none := by
          unfold findReset
          rw [pickLatest_eq_none]
          apply List.eq_nil_iff_forall_not_mem.mpr
          intro x hx
          obtain ⟨hxmem, hxe, hxc, hxu⟩ := mem_matchingUnused.mp hx
          obtain ⟨y, hy, hyx⟩ := List.mem_map.mp hxmem
          by_cases hid : y.id = r.id
          · rw [if_pos hid] at hyx
            rw [← hyx] at hxu
            simp at hxu
          · rw [if_neg hid] at hyx
            subst hyx
            have hym : y ∈ matchingUnused resets email code :=
              mem_matchingUnused.mpr ⟨hy, hxe, hxc, hxu⟩
            rw [hsingle] at hym
            exact hid (by rw [List.mem_singleton.mp hym])
        rw [hev]
        simp [verify_login, hcode, hnone2]
    · -- matching row found but expired
      have hlt : 30 < now - r.created_at := Nat.not_le.mp hwin
      have hev : verify_login users resets email code now =
          { authenticated := false,
            message := some "Invalid or expired verification code",
            resets := resets } := by
        simp [verify_login, hcode, hfr, hlt]
      refine ⟨?_, ?_, ?_⟩
      · rw [hev]
        constructor
        · intro h; simp at h
        · rintro ⟨r', hr', he', hc', hus', hwin', hmax'⟩
          have h1 : r'.created_at ≤ r.created_at :=
            hrmax r' hr' he' hc' hus'
          have h2 : r.created_at ≤ r'.created_at :=
            hmax' r hrmem hremail hrcode hrused
          have : now - r.created_at ≤ 30 := by omega
          exact absurd this hwin
      · intro h; rw [hev] at h; simp at h
      · intro h; rw [hev] at h; simp at h

/-- C1 amended witness: a single fresh code authenticates at a concrete
state, its row ends marked used, and the immediate replay is rejected. -/
theorem C1_amended_witness :
    (verify_login [⟨1, "alice", "a@x.com", "H"⟩]
        [⟨1, "a@x.com", "483920", 0, false⟩] "a@x.com" "483920" 5).authenticated
      = true ∧
    (verify_login [⟨1, "alice", "a@x.com", "H"⟩]
        (verify_login [⟨1, "alice", "a@x.com", "H"⟩]
            [⟨1, "a@x.com", "483920", 0, false⟩] "a@x.com" "483920" 5).resets
        "a@x.com" "483920" 6).authenticated = false := by
  have h := C1_amended_verify_iff [⟨1, "alice", "a@x.com", "H"⟩]
    [⟨1, "a@x.com", "483920", 0, false⟩] "a@x.com" "483920" 5
    (by decide) (by decide)
  have hauth : (verify_login [⟨1, "alice", "a@x.com", "H"⟩]
      [⟨1, "a@x.com", "483920", 0, false⟩] "a@x.com" "483920" 5).authenticated
        = true :=
    h.1.mpr ⟨⟨1, "a@x.com", "483920", 0, false⟩, by decide, rfl, rfl, rfl,
      by decide, by decide⟩
  exact ⟨hauth, h.2.2 hauth (by decide) 6⟩

end RetroNet
